import Mathlib

/-!
Verification of the factory-simulator repository (selimslab/factory-simulator).

The repository contains two generations of the simulator:
* `design.py` — order handling: `ResourceScheduler`, `ProductionScheduler`,
  `OrderHandler` and `FactorySimulation.process_order`; embedded here in
  namespace `Design`.
* `d2.py` — the richer resource model: `Employee` (skills, fatigue, shift
  calendar), `Machine` (wear, maintenance), `ProductionStep` duration
  scaling, `MaintenanceManager` and `EmployeeManager`; embedded here in
  namespace `D2`.

Modelling conventions, applied uniformly:
* Python `int` fields become `Int` (or `Nat` where the source can only ever
  hold non-negative counts); Python `float` arithmetic is modelled by exact
  rationals `ℚ` (the source formulas only use +, −, ×, /, min, `**2`);
  Python `int(x)` (truncation toward zero) is `pyInt` below.
* `datetime` values are modelled as minute counts: an absolute timestamp is
  a `Nat`/`Int` number of minutes, a day is `t / 1440`, the hour of day is
  `t % 1440 / 60`, and the weekday is `t / 1440 % 7` with day 0 a Monday
  (mirroring Python's `weekday()` numbering, Monday = 0).
* Python dicts keyed by enums/strings become association lists looked up by
  decidable equality; Python object identity becomes an `id : Nat` field,
  and in-place mutation of an object shared between a queue and a store
  becomes an update-by-id of the store.
* `datetime.now()` (wall-clock reads inside `perform_maintenance` and
  `needs_maintenance`) is passed in as an explicit timestamp parameter.
-/

/-- Python `int(x)` for a rational `x`: truncation toward zero
(`Int.tdiv` is T-division, exactly Python's `int()` on a fraction). -/
def pyInt (q : ℚ) : Int := q.num.tdiv q.den

namespace D2

/-- `SkillLevel` enum of `d2.py`; `auto()` numbers members from 1. -/
inductive SkillLevel where
  | NOVICE | INTERMEDIATE | ADVANCED | EXPERT
deriving DecidableEq

/-- The `.value` of a `SkillLevel` member (`auto()` starts at 1). -/
def SkillLevel.value : SkillLevel → Nat
  | .NOVICE => 1
  | .INTERMEDIATE => 2
  | .ADVANCED => 3
  | .EXPERT => 4

/-- `Skill` enum of `d2.py`. -/
inductive Skill where
  | FRAME_WELDING | TUBE_CUTTING | COMPONENT_ASSEMBLY | WHEEL_BUILDING
  | PAINTING | QUALITY_CONTROL | ELECTRONICS | MACHINING
  | SUSPENSION_TUNING | MAINTENANCE
deriving DecidableEq

/-- `ResourceStatus` enum of `d2.py`. -/
inductive ResourceStatus where
  | AVAILABLE | BUSY | UNAVAILABLE | MAINTENANCE | BREAKDOWN | ON_BREAK | OFF_SHIFT
deriving DecidableEq

/-- `MaintenanceType` enum of `d2.py`. -/
inductive MaintenanceType where
  | ROUTINE | PREVENTIVE | CORRECTIVE | EMERGENCY
deriving DecidableEq

/-- `Shift` enum of `d2.py`. -/
inductive Shift where
  | MORNING | AFTERNOON | NIGHT
deriving DecidableEq

/-- `WorkSchedule` of `d2.py`.  `shifts` is the weekday→shift dict (an absent
key models the `None` entries `__post_init__` fills in); `vacation_days` and
`sick_days` hold day numbers (the result of `datetime.date()`). -/
structure WorkSchedule where
  shifts : List (Nat × Shift) := []
  vacation_days : List Nat := []
  sick_days : List Nat := []
deriving DecidableEq

/-- Dict lookup `self.shifts.get(day_of_week)`. -/
def WorkSchedule.getShift (s : WorkSchedule) (day : Nat) : Option Shift :=
  (s.shifts.find? (fun p => p.1 == day)).map (fun p => p.2)

/-- `WorkSchedule.is_available(dt)` of `d2.py`: not a vacation/sick day, a
shift is assigned for the weekday, and the hour is inside the shift window
(morning 6–14, afternoon 14–22, night 22–6).  `t` is an absolute timestamp
in minutes. -/
def WorkSchedule.is_available (s : WorkSchedule) (t : Nat) : Bool :=
  let day := t / 1440
  if s.vacation_days.contains day || s.sick_days.contains day then
    false
  else
    match s.getShift (day % 7) with
    | none => false
    | some sh =>
      let hour := t % 1440 / 60
      match sh with
      | .MORNING => decide (6 ≤ hour) && decide (hour < 14)
      | .AFTERNOON => decide (14 ≤ hour) && decide (hour < 22)
      | .NIGHT => decide (22 ≤ hour) || decide (hour < 6)

/-- `Employee` of `d2.py` (the fields the verified operations read or write;
`worker_type`, `hourly_rate`, `experience_years` and `error_rate` are not
touched by any claim and are omitted). -/
structure Employee where
  id : Nat
  skills : List (Skill × SkillLevel)
  status : ResourceStatus := .AVAILABLE
  fatigue_level : Int := 0
  schedule : WorkSchedule := {}
deriving DecidableEq

/-- Dict lookup `employee.skills[skill]` / `skill in employee.skills`. -/
def lookupSkill (skills : List (Skill × SkillLevel)) (s : Skill) : Option SkillLevel :=
  (skills.find? (fun p => p.1 == s)).map (fun p => p.2)

/-- `Employee.has_skill` of `d2.py`:
`skill in self.skills and self.skills[skill].value >= level.value`. -/
def Employee.has_skill (e : Employee) (s : Skill) (level : SkillLevel) : Bool :=
  match lookupSkill e.skills s with
  | some held => decide (level.value ≤ held.value)
  | none => false

/-- The body of the `while current < end_time` loop of
`Employee.is_available`, counted: the loop starts at `start`, advances by 15
minutes per iteration and runs while `current < start + duration`, i.e. for
exactly `⌈duration / 15⌉` iterations; `n` is the number of iterations left. -/
def coverSteps (sched : WorkSchedule) (current : Nat) : Nat → Bool
  | 0 => true
  | n + 1 => sched.is_available current && coverSteps sched (current + 15) n

/-- `Employee.is_available(start_time, duration)` of `d2.py`: status must be
`AVAILABLE` or `ON_BREAK`, and the shift calendar must cover every sampled
15-minute point of the task interval. -/
def Employee.is_available (e : Employee) (start_time duration : Nat) : Bool :=
  (e.status == .AVAILABLE || e.status == .ON_BREAK) &&
    coverSteps e.schedule start_time ((duration + 14) / 15)

/-- `Employee.increase_fatigue(work_duration)` of `d2.py`:
`fatigue += int(work_duration / 30)`, clamped above at 100. -/
def Employee.increase_fatigue (e : Employee) (work_duration : Nat) : Employee :=
  { e with fatigue_level := min 100 (e.fatigue_level + (work_duration / 30 : Nat)) }

/-- `Employee.take_break(break_duration)` of `d2.py`:
`fatigue -= int(break_duration / 15)`, clamped below at 0. -/
def Employee.take_break (e : Employee) (break_duration : Nat) : Employee :=
  { e with fatigue_level := max 0 (e.fatigue_level - (break_duration / 15 : Nat)) }

/-- `MachineCondition` of `d2.py`. -/
structure MachineCondition where
  wear_level : Int := 0
  critical_threshold : Int := 80
deriving DecidableEq

/-- `MachineCondition.risk_of_failure` of `d2.py`: past the critical
threshold, `min(0.90, 0.1 + ((wear - threshold) / 20.0)**2)`; below it,
`wear / (threshold * 10)`. -/
def MachineCondition.risk_of_failure (c : MachineCondition) : ℚ :=
  if c.critical_threshold ≤ c.wear_level then
    min 0.90 (0.1 + (((c.wear_level : ℚ) - (c.critical_threshold : ℚ)) / 20) ^ 2)
  else
    (c.wear_level : ℚ) / ((c.critical_threshold : ℚ) * 10)

/-- `MaintenanceLog` of `d2.py` (the `uuid4` id, `issues_found`,
`parts_replaced` and the constant `success=True` flag carry no information
for the claims and are omitted). -/
structure MaintenanceLog where
  machine_id : Nat
  mtype : MaintenanceType
  performed_by : Nat
  start_time : Int
  duration : Nat
deriving DecidableEq

/-- `MaintenanceSchedule` of `d2.py` (`preventive_checks` and
`upcoming_maintenance` are never read). -/
structure MaintenanceSchedule where
  routine_interval : Int := 480
  last_routine : Int := 0
deriving DecidableEq

/-- The `maintenance_duration` dict of `Machine` with its default entries
(2 h routine, 4 h preventive, 6 h corrective, 8 h emergency). -/
structure MaintenanceDurations where
  routine : Nat := 120
  preventive : Nat := 240
  corrective : Nat := 360
  emergency : Nat := 480
deriving DecidableEq

/-- Dict lookup `machine.maintenance_duration[maintenance_type]`. -/
def MaintenanceDurations.get (d : MaintenanceDurations) : MaintenanceType → Nat
  | .ROUTINE => d.routine
  | .PREVENTIVE => d.preventive
  | .CORRECTIVE => d.corrective
  | .EMERGENCY => d.emergency

/-- `Machine` of `d2.py` (fields read or written by the verified
operations; `name`, `machine_type`, `skills_required`,
`installation_date` are omitted). -/
structure Machine where
  id : Nat
  status : ResourceStatus := .AVAILABLE
  maintenance_schedule : MaintenanceSchedule := {}
  condition : MachineCondition := {}
  maintenance_history : List MaintenanceLog := []
  operating_hours : ℚ := 0
  expected_lifetime : ℚ := 43800
  maintenance_duration : MaintenanceDurations := {}
deriving DecidableEq

/-- `Machine.needs_maintenance` of `d2.py`: hours elapsed since the last
routine service reach the routine interval.  `wall_now` stands for the
`datetime.now()` read, in minutes. -/
def Machine.needs_maintenance (m : Machine) (wall_now : Int) : Bool :=
  decide ((m.maintenance_schedule.routine_interval : ℚ) ≤
    ((wall_now : ℚ) - (m.maintenance_schedule.last_routine : ℚ)) / 60)

/-- `Machine.increase_wear(operating_time)` of `d2.py`: convert minutes to
hours, accumulate `operating_hours`, then add
`int(hours * (1 + operating_hours / expected_lifetime))` to the wear level,
clamped above at 100. -/
def Machine.increase_wear (m : Machine) (operating_time : Nat) : Machine :=
  let hours : ℚ := (operating_time : ℚ) / 60
  let operating_hours := m.operating_hours + hours
  let age_factor := operating_hours / m.expected_lifetime
  let wear_increase := hours * (1 + age_factor)
  { m with
    operating_hours := operating_hours
    condition := { m.condition with
      wear_level := min 100 (m.condition.wear_level + pyInt wear_increase) } }

/-- `Machine.perform_maintenance(maintenance_type, employee)` of `d2.py`.
`start_time` stands for the `datetime.now()` read.  Routine/preventive
service reduces wear by 30 and resets `last_routine`; corrective reduces it
by 50 and sets the status to `AVAILABLE`; emergency reduces it by 70 and
sets the status to `AVAILABLE`.  Wear is clamped below at 0, the log is
appended to the history. -/
def Machine.perform_maintenance (m : Machine) (maintenance_type : MaintenanceType)
    (e : Employee) (start_time : Int) : Machine × MaintenanceLog :=
  let duration := m.maintenance_duration.get maintenance_type
  let log : MaintenanceLog :=
    { machine_id := m.id, mtype := maintenance_type, performed_by := e.id
      start_time := start_time, duration := duration }
  let m :=
    match maintenance_type with
    | .ROUTINE | .PREVENTIVE =>
      { m with
        condition := { m.condition with wear_level := max 0 (m.condition.wear_level - 30) }
        maintenance_schedule := { m.maintenance_schedule with last_routine := start_time } }
    | .CORRECTIVE =>
      { m with
        condition := { m.condition with wear_level := max 0 (m.condition.wear_level - 50) }
        status := .AVAILABLE }
    | .EMERGENCY =>
      { m with
        condition := { m.condition with wear_level := max 0 (m.condition.wear_level - 70) }
        status := .AVAILABLE }
  ({ m with maintenance_history := m.maintenance_history ++ [log] }, log)

/-- `ProductionStep` of `d2.py` (fields used by
`calculate_actual_duration`; the machine/material requirements and quality
fields play no role in the duration formula). -/
structure ProductionStep where
  id : Nat
  required_skills : List (Skill × SkillLevel)
  duration : Nat
deriving DecidableEq

/-- `ProductionStep.calculate_actual_duration(employee)` of `d2.py`:
`skill_factor` starts at 1.0 and for every required skill the employee holds
takes the min with `1.0 - (employee_level - required_level) * 0.1`;
`fatigue_factor = 1.0 + (fatigue_level / 100.0) * 0.3`; the result is
`int(duration * skill_factor * fatigue_factor)`. -/
def ProductionStep.calculate_actual_duration (step : ProductionStep) (e : Employee) : Int :=
  let duration : ℚ := (step.duration : ℚ)
  let skill_factor : ℚ := step.required_skills.foldl
    (fun sf p =>
      match lookupSkill e.skills p.1 with
      | some employee_level =>
        min sf (1 - ((employee_level.value : ℚ) - (p.2.value : ℚ)) * 0.1)
      | none => sf) 1
  let fatigue_factor : ℚ := 1 + ((e.fatigue_level : ℚ) / 100) * 0.3
  pyInt (duration * skill_factor * fatigue_factor)

/-- The eligible-workers query of the spec (`find_eligible_workers`):
`ResourceScheduler.find_available_employees` of `design.py` — the list
comprehension keeping each employee that holds every required skill at the
required level and whose `is_available(start_time, duration)` holds — taken
over the `d2.py` `Employee` (whose `is_available` checks status and the
shift calendar). -/
def find_available_employees (employees : List Employee)
    (skills_required : List (Skill × SkillLevel)) (start_time duration : Nat) :
    List Employee :=
  employees.filter (fun e =>
    skills_required.all (fun p => e.has_skill p.1 p.2) &&
      e.is_available start_time duration)

/-- The `maintenance_stats` dict of `MaintenanceManager`. -/
structure MaintenanceStats where
  routine_performed : Nat := 0
  preventive_performed : Nat := 0
  corrective_performed : Nat := 0
  emergency_performed : Nat := 0
  total_downtime : Nat := 0
deriving DecidableEq

/-- The mutable state of `MaintenanceManager` of `d2.py`: the two queues
(holding references to machines, modelled by machine id), the fixed
`maintenance_employees` list, the machine store (`factory.machines`) and the
stats dict. -/
structure MaintenanceManager where
  maintenance_employees : List Employee
  scheduled_maintenance : List (Nat × MaintenanceType) := []
  emergency_queue : List (Nat × MaintenanceType) := []
  machines : List Machine
  stats : MaintenanceStats := {}
deriving DecidableEq

/-- Dereference a machine id in the store (a queue entry's machine object). -/
def findMachine (machines : List Machine) (i : Nat) : Option Machine :=
  machines.find? (fun m => m.id == i)

/-- Write back an in-place mutation of a machine shared by reference. -/
def updMachine (machines : List Machine) (m : Machine) : List Machine :=
  machines.map (fun x => if x.id == m.id then m else x)

/-- Write back an in-place `employee.status = s` mutation. -/
def setEmployeeStatus (es : List Employee) (i : Nat) (s : ResourceStatus) : List Employee :=
  es.map (fun e => if e.id == i then { e with status := s } else e)

/-- `MaintenanceManager.schedule_maintenance` of `d2.py`: emergency and
corrective requests join `emergency_queue`, the rest join
`scheduled_maintenance` (both appended at the back). -/
def MaintenanceManager.schedule_maintenance (st : MaintenanceManager)
    (machine_id : Nat) (maintenance_type : MaintenanceType) : MaintenanceManager :=
  if maintenance_type == .EMERGENCY || maintenance_type == .CORRECTIVE then
    { st with emergency_queue := st.emergency_queue ++ [(machine_id, maintenance_type)] }
  else
    { st with scheduled_maintenance := st.scheduled_maintenance ++ [(machine_id, maintenance_type)] }

/-- The machine scan at the end of every `maintenance_scheduler` iteration:
enqueue routine maintenance for available machines past their service
interval, preventive maintenance for available machines with wear above 50
that are not already in the scheduled queue. -/
def scanMachines (st : MaintenanceManager) (wall_now : Int) : MaintenanceManager :=
  st.machines.foldl
    (fun acc machine =>
      if machine.needs_maintenance wall_now && machine.status == .AVAILABLE then
        acc.schedule_maintenance machine.id .ROUTINE
      else if decide (50 < machine.condition.wear_level) && machine.status == .AVAILABLE &&
          !(acc.scheduled_maintenance.any (fun p => p.1 == machine.id)) then
        acc.schedule_maintenance machine.id .PREVENTIVE
      else acc)
    st

/-- One iteration of the `while True` body of
`MaintenanceManager.maintenance_scheduler` of `d2.py` (the `yield timeout`
suspensions elided; `wall_now` stands for the `datetime.now()` reads).

* If the emergency queue is non-empty its head is popped; if a maintenance
  employee with `MAINTENANCE ≥ INTERMEDIATE` is available the job runs
  (employee set busy, machine set to maintenance, stats updated,
  `perform_maintenance`, employee restored); **otherwise the popped entry is
  not re-queued** — the code only waits 30 minutes.
* Otherwise, if the scheduled queue is non-empty its head is popped; the
  required level is `NOVICE` for routine and `INTERMEDIATE` otherwise; if an
  employee is found **and the machine is available** the job runs the same
  way, else the entry is appended back to the scheduled queue.
* In both cases the machine scan then runs. -/
def maintenance_scheduler_tick (st : MaintenanceManager) (wall_now : Int) :
    MaintenanceManager :=
  let st :=
    match st.emergency_queue with
    | (machine_id, maint_type) :: rest =>
      let st := { st with emergency_queue := rest }
      let available_employees := st.maintenance_employees.filter
        (fun e => e.status == .AVAILABLE && e.has_skill .MAINTENANCE .INTERMEDIATE)
      match available_employees with
      | employee :: _ =>
        match findMachine st.machines machine_id with
        | some machine =>
          let st := { st with
            maintenance_employees := setEmployeeStatus st.maintenance_employees employee.id .BUSY }
          let machine := { machine with status := .MAINTENANCE }
          let duration := machine.maintenance_duration.get maint_type
          let stats := { st.stats with total_downtime := st.stats.total_downtime + duration }
          let stats :=
            if maint_type == .EMERGENCY then
              { stats with emergency_performed := stats.emergency_performed + 1 }
            else
              { stats with corrective_performed := stats.corrective_performed + 1 }
          let machine := (machine.perform_maintenance maint_type employee wall_now).1
          let st := { st with machines := updMachine st.machines machine, stats := stats }
          { st with
            maintenance_employees := setEmployeeStatus st.maintenance_employees employee.id .AVAILABLE }
        | none => st
      | [] => st
    | [] =>
      match st.scheduled_maintenance with
      | (machine_id, maint_type) :: rest =>
        let st := { st with scheduled_maintenance := rest }
        let skill_level : SkillLevel :=
          if maint_type == .ROUTINE then .NOVICE else .INTERMEDIATE
        let available_employees := st.maintenance_employees.filter
          (fun e => e.status == .AVAILABLE && e.has_skill .MAINTENANCE skill_level)
        match findMachine st.machines machine_id, available_employees with
        | some machine, employee :: _ =>
          if machine.status == .AVAILABLE then
            let st := { st with
              maintenance_employees := setEmployeeStatus st.maintenance_employees employee.id .BUSY }
            let machine := { machine with status := .MAINTENANCE }
            let duration := machine.maintenance_duration.get maint_type
            let stats := { st.stats with total_downtime := st.stats.total_downtime + duration }
            let stats :=
              if maint_type == .ROUTINE then
                { stats with routine_performed := stats.routine_performed + 1 }
              else
                { stats with preventive_performed := stats.preventive_performed + 1 }
            let machine := (machine.perform_maintenance maint_type employee wall_now).1
            let st := { st with machines := updMachine st.machines machine, stats := stats }
            { st with
              maintenance_employees := setEmployeeStatus st.maintenance_employees employee.id .AVAILABLE }
          else
            { st with scheduled_maintenance := st.scheduled_maintenance ++ [(machine_id, maint_type)] }
        | _, _ =>
          { st with scheduled_maintenance := st.scheduled_maintenance ++ [(machine_id, maint_type)] }
      | [] => st
  scanMachines st wall_now

/-- The per-employee body of one iteration of
`EmployeeManager.manage_employee_schedules` of `d2.py`.  `now` is `env.now`
in minutes (`datetime.fromtimestamp(env.now * 60)` advances the calendar by
one minute per simulated minute) and `break_end` is this employee's entry in
`break_schedule` (absent = `none`).  In order: shift transition, break
scheduling on fatigue above 70, break completion, off-shift fatigue decay. -/
def employee_schedule_tick (e : Employee) (break_end : Option Nat) (now : Nat) :
    Employee × Option Nat :=
  let e :=
    if e.schedule.is_available now then
      if e.status == .OFF_SHIFT then { e with status := .AVAILABLE } else e
    else
      if !(e.status == .OFF_SHIFT || e.status == .UNAVAILABLE) then
        { e with status := .OFF_SHIFT }
      else e
  let p :=
    if e.status == .AVAILABLE && decide (70 < e.fatigue_level) && break_end.isNone then
      ({ e with status := .ON_BREAK }, some (now + 30))
    else (e, break_end)
  let q :=
    match p.2 with
    | some t => if t ≤ now then ({ p.1.take_break 30 with status := .AVAILABLE }, none)
                else p
    | none => p
  (if q.1.status == .OFF_SHIFT then
      { q.1 with fatigue_level := max 0 (q.1.fatigue_level - 1) }
    else q.1, q.2)

end D2

namespace Design

/-- `ResourceStatus` enum of `design.py`. -/
inductive ResourceStatus where
  | AVAILABLE | BUSY | UNAVAILABLE | MAINTENANCE
deriving DecidableEq

/-- `OrderStatus` enum of `design.py`. -/
inductive OrderStatus where
  | RECEIVED | SCHEDULED | IN_PRODUCTION | COMPLETED | CANCELLED
deriving DecidableEq

/-- `Material` of `design.py` (id and quantity; name, location and unit
cost are never read by the scheduling code). -/
structure Material where
  id : Nat
  quantity : Int
deriving DecidableEq

/-- `Employee` of `design.py` (its `is_available` reads only `status`). -/
structure Employee where
  id : Nat
  skills : List (D2.Skill × D2.SkillLevel)
  status : ResourceStatus := .AVAILABLE
deriving DecidableEq

/-- `Employee.has_skill` of `design.py` (identical to the `d2.py` one). -/
def Employee.has_skill (e : Employee) (s : D2.Skill) (level : D2.SkillLevel) : Bool :=
  match D2.lookupSkill e.skills s with
  | some held => decide (level.value ≤ held.value)
  | none => false

/-- `Employee.is_available` of `design.py`: the simplified check
`self.status == ResourceStatus.AVAILABLE` (the start time and duration are
ignored). -/
def Employee.is_available (e : Employee) : Bool :=
  e.status == .AVAILABLE

/-- `Machine` of `design.py` (fields read by `is_available`; `machine_type`
is the type string keyed by a number). -/
structure Machine where
  id : Nat
  machine_type : Nat
  status : ResourceStatus := .AVAILABLE
  maintenance_interval : Int := 2400
  minutes_since_maintenance : Int := 0
deriving DecidableEq

/-- `Machine.is_available` of `design.py`: unavailable once
`minutes_since_maintenance` reaches the interval, else status must be
`AVAILABLE`. -/
def Machine.is_available (m : Machine) : Bool :=
  if m.maintenance_interval ≤ m.minutes_since_maintenance then false
  else m.status == .AVAILABLE

/-- `ProductionStep` of `design.py` (required materials map material id to
quantity). -/
structure ProductionStep where
  id : Nat
  required_skills : List (D2.Skill × D2.SkillLevel)
  required_machines : List Nat
  required_materials : List (Nat × Int)
  duration : Nat
deriving DecidableEq

/-- A `datetime` as used by `ProductionScheduler.schedule_order`: only the
minute field is read and written (`current_time.replace(minute=...)`), so
the model keeps the minute separate from the rest of the timestamp. -/
structure DTime where
  base : Nat
  minute : Nat
deriving DecidableEq

/-- `datetime.replace(minute=m)`: raises `ValueError` unless `0 ≤ m ≤ 59`
(the model's `m : Nat` already rules out negatives). -/
def DTime.replaceMinute (t : DTime) (m : Nat) : Except String DTime :=
  if m ≤ 59 then .ok { t with minute := m }
  else .error "ValueError: minute must be in 0..59"

/-- `ScheduledTask` of `design.py` (employee/machine bindings by id). -/
structure ScheduledTask where
  step_id : Nat
  start_time : DTime
  end_time : DTime
  assigned_employees : List Nat
  assigned_machines : List Nat
deriving DecidableEq

/-- `Order` of `design.py`; `steps` is `order.bike_model.steps` (the recipe
of the ordered model). -/
structure Order where
  id : Nat
  steps : List ProductionStep
  quantity : Nat
  tasks : List ScheduledTask := []
  status : OrderStatus := .RECEIVED
deriving DecidableEq

/-- `ResourceScheduler` of `design.py`: the employee and machine lists and
the material inventory. -/
structure ResourceScheduler where
  employees : List Employee
  machines : List Machine
  inventory : List Material
deriving DecidableEq

/-- Dict lookup `self.inventory[material_id]` / `material_id in
self.inventory`. -/
def findMaterial (inventory : List Material) (i : Nat) : Option Material :=
  inventory.find? (fun mat => mat.id == i)

/-- `ResourceScheduler.find_available_employees` of `design.py`. -/
def ResourceScheduler.find_available_employees (rs : ResourceScheduler)
    (skills_required : List (D2.Skill × D2.SkillLevel)) : List Employee :=
  rs.employees.filter (fun e =>
    skills_required.all (fun p => e.has_skill p.1 p.2) && e.is_available)

/-- `ResourceScheduler.find_available_machines` of `design.py`. -/
def ResourceScheduler.find_available_machines (rs : ResourceScheduler)
    (machine_types : List Nat) : List Machine :=
  rs.machines.filter (fun m => machine_types.contains m.machine_type && m.is_available)

/-- `ResourceScheduler.has_materials` of `design.py`: every requirement id
is in the inventory with at least the required quantity. -/
def ResourceScheduler.has_materials (rs : ResourceScheduler)
    (materials_required : List (Nat × Int)) : Bool :=
  materials_required.all (fun p =>
    match findMaterial rs.inventory p.1 with
    | some mat => decide (p.2 ≤ mat.quantity)
    | none => false)

/-- The inner `for step in order.bike_model.steps` loop of
`ProductionScheduler.schedule_order` of `design.py` for one unit: material,
employee and machine checks in order (`.ok none` models the `return False`
paths), then `end_time = current_time.replace(minute=current_time.minute +
step.duration)` — which raises `ValueError` whenever the new minute exceeds
59 (modelled by `Except.error`) — then the task is appended and time moves
to `end_time`. -/
def schedule_steps (rs : ResourceScheduler) (steps : List ProductionStep)
    (order : Order) (current_time : DTime) : Except String (Option (Order × DTime)) :=
  match steps with
  | [] => .ok (some (order, current_time))
  | step :: rest =>
    if !(rs.has_materials step.required_materials) then .ok none
    else
      let employees := rs.find_available_employees step.required_skills
      if employees.isEmpty then .ok none
      else
        let machines := rs.find_available_machines step.required_machines
        if !step.required_machines.isEmpty && machines.isEmpty then .ok none
        else
          match current_time.replaceMinute (current_time.minute + step.duration) with
          | .error s => .error s
          | .ok end_time =>
            let task : ScheduledTask :=
              { step_id := step.id, start_time := current_time, end_time := end_time
                assigned_employees := (employees.take 1).map (fun e => e.id)
                assigned_machines := machines.map (fun m => m.id) }
            schedule_steps rs rest { order with tasks := order.tasks ++ [task] } end_time

/-- The outer `for _ in range(order.quantity)` loop of `schedule_order`. -/
def schedule_units (rs : ResourceScheduler) (order : Order) (current_time : DTime) :
    Nat → Except String (Bool × Order)
  | 0 => .ok (true, order)
  | n + 1 =>
    match schedule_steps rs order.steps order current_time with
    | .error s => .error s
    | .ok none => .ok (false, order)
    | .ok (some (order, current_time)) => schedule_units rs order current_time n

/-- `ProductionScheduler.schedule_order` of `design.py`.  `now` stands for
the `datetime.now()` read.  On success the order becomes `SCHEDULED` and
`True` is returned; an availability shortfall returns `False` with the
partially extended task list kept; a `datetime.replace` `ValueError`
propagates as `Except.error`. -/
def schedule_order (rs : ResourceScheduler) (order : Order) (now : DTime) :
    Except String (Bool × Order) :=
  match schedule_units rs order now order.quantity with
  | .error s => .error s
  | .ok (false, order) => .ok (false, order)
  | .ok (true, order) => .ok (true, { order with status := .SCHEDULED })

/-- `OrderHandler.process_new_order` of `design.py`: run `schedule_order`;
on `False` the order is cancelled (an uncaught exception still
propagates). -/
def process_new_order (rs : ResourceScheduler) (order : Order) (now : DTime) :
    Except String Order :=
  match schedule_order rs order now with
  | .error s => .error s
  | .ok (true, order) => .ok order
  | .ok (false, order) => .ok { order with status := .CANCELLED }

/-- The `simulation_stats` dict of `FactorySimulation` of `design.py` (the
counters the order path touches). -/
structure SimStats where
  orders_received : Nat := 0
  orders_completed : Nat := 0
  orders_cancelled : Nat := 0
  bikes_produced : Nat := 0
deriving DecidableEq

/-- The dict update `material_requirements[mid] =
material_requirements.get(mid, 0) + quantity * order.quantity`. -/
def addRequirement (acc : List (Nat × Int)) (mid : Nat) (q : Int) : List (Nat × Int) :=
  match acc with
  | [] => [(mid, q)]
  | p :: rest => if p.1 == mid then (p.1, p.2 + q) :: rest else p :: addRequirement rest mid q

/-- The aggregation loop of `FactorySimulation.process_order`: total
requirement of every material over all steps, multiplied by the order
quantity. -/
def aggregate_requirements (steps : List ProductionStep) (quantity : Nat) :
    List (Nat × Int) :=
  steps.foldl
    (fun acc step =>
      step.required_materials.foldl
        (fun acc p => addRequirement acc p.1 (p.2 * (quantity : Int)))
        acc)
    []

/-- The shortage test of `process_order`: some aggregated requirement is
missing from the inventory or exceeds the stocked quantity. -/
def isShort (inventory : List Material) (reqs : List (Nat × Int)) : Bool :=
  reqs.any (fun p =>
    match findMaterial inventory p.1 with
    | some mat => decide (mat.quantity < p.2)
    | none => true)

/-- The reservation loop of `process_order`:
`inventory[mid].quantity -= needed` for every aggregated requirement. -/
def reserveMaterials (inventory : List Material) (reqs : List (Nat × Int)) :
    List Material :=
  reqs.foldl
    (fun inv p =>
      inv.map (fun mat => if mat.id == p.1 then { mat with quantity := mat.quantity - p.2 } else mat))
    inventory

/-- The synchronous prefix (everything before the first `yield`) of
`FactorySimulation.process_order` of `design.py`: count the order as
received, aggregate the material requirements, and either (shortage) count
it as cancelled and return with the inventory **and the order** untouched,
or reserve all materials and move the order to `IN_PRODUCTION`.  The
subsequent per-bike production and the completion bookkeeping happen only
after `yield`s and are outside this prefix. -/
def process_order (inventory : List Material) (stats : SimStats) (order : Order) :
    List Material × SimStats × Order :=
  let stats := { stats with orders_received := stats.orders_received + 1 }
  let material_requirements := aggregate_requirements order.steps order.quantity
  if isShort inventory material_requirements then
    (inventory, { stats with orders_cancelled := stats.orders_cancelled + 1 }, order)
  else
    (reserveMaterials inventory material_requirements, stats,
      { order with status := .IN_PRODUCTION })

end Design

/-! ## Concrete instances used by the claims -/

/-- The spec's wording of the skill factor's generic term,
`1 − 0.1 × (worker_level − required_level)`, for one required-skill entry
`p` (the worker is assumed to hold the skill; the `none` default is
irrelevant under that hypothesis). -/
def skill_term (e : D2.Employee) (p : D2.Skill × D2.SkillLevel) : ℚ :=
  match D2.lookupSkill e.skills p.1 with
  | some held => 1 - ((held.value : ℚ) - (p.2.value : ℚ)) * 0.1
  | none => 1

/-- The spec's wording of the skill factor: the minimum of `skill_term`
over the (non-empty) required-skill list, with no extra seed value. -/
def min_over_skills (e : D2.Employee) : List (D2.Skill × D2.SkillLevel) → ℚ
  | [] => 1
  | p :: rest => rest.foldl (fun acc q => min acc (skill_term e q)) (skill_term e p)

/-- The inventory used for claim C1: 5 units of material 0 in stock. -/
def invC1 : List Design.Material := [⟨0, 5⟩]

/-- The order used for claim C1: two bikes of a one-step recipe needing 3
units of material 0 per bike — an aggregated requirement of 6 > 5. -/
def orderC1 : Design.Order :=
  { id := 7, steps := [⟨1, [], [], [(0, 3)], 45⟩], quantity := 2 }

/-- The scheduler input used for claim C3: one available employee, a
one-step recipe of duration 45 minutes with no skill, machine, or material
requirements, submitted when the wall clock reads minute 30 past the
hour. -/
def rsC3 : Design.ResourceScheduler :=
  { employees := [{ id := 0, skills := [] }], machines := [], inventory := [] }

/-- The order used for claim C3. -/
def orderC3 : Design.Order :=
  { id := 1, steps := [⟨1, [], [], [], 45⟩], quantity := 1 }

/-- The maintenance-manager state used for claim C2: one emergency entry
for a broken-down machine, and a single maintenance technician who is
`BUSY`, so no eligible worker is available on this tick. -/
def mmC2 : D2.MaintenanceManager :=
  { maintenance_employees := [⟨3, [(.MAINTENANCE, .EXPERT)], .BUSY, 0, {}⟩]
    emergency_queue := [(0, .EMERGENCY)]
    machines := [{ id := 0, status := .BREAKDOWN }] }

/-- The worker used for the claim C4 counterexample: holds
`FRAME_WELDING = EXPERT`, works the Monday morning shift, but is currently
`ON_BREAK`. -/
def onBreakWelder : D2.Employee :=
  { id := 9, skills := [(.FRAME_WELDING, .EXPERT)], status := .ON_BREAK
    schedule := { shifts := [(0, .MORNING)] } }

/-- The worker used for the claim C8 counterexample: `BUSY`, with an empty
shift calendar so the current time is never inside a shift. -/
def busyNoShift : D2.Employee := { id := 4, skills := [], status := .BUSY }

/-- The concrete maintenance-manager state used for claim C10: one routine
entry queued for an available machine, one available maintenance
employee. -/
def mmC10 : D2.MaintenanceManager :=
  { maintenance_employees := [⟨3, [(.MAINTENANCE, .EXPERT)], .AVAILABLE, 0, {}⟩]
    scheduled_maintenance := [(0, .ROUTINE)]
    machines := [{ id := 0, status := .AVAILABLE }] }

/-! ## Helper lemmas -/

theorem pyInt_eq_floor (q : ℚ) (h : 0 ≤ q) : pyInt q = ⌊q⌋ := by
  rw [pyInt, Rat.floor_def]
  exact Int.tdiv_eq_ediv (by exact_mod_cast Rat.num_nonneg.mpr h) (by positivity)

theorem pyInt_nonneg (q : ℚ) (h : 0 ≤ q) : 0 ≤ pyInt q := by
  rw [pyInt_eq_floor q h]
  exact Int.floor_nonneg.mpr h

theorem rstatus_beq (a b : D2.ResourceStatus) : (a == b) = decide (a = b) := rfl

theorem skill_beq (a b : D2.Skill) : (a == b) = decide (a = b) := rfl

theorem skill_term_le_one (e : D2.Employee) (p : D2.Skill × D2.SkillLevel)
    (h : e.has_skill p.1 p.2 = true) : skill_term e p ≤ 1 := by
  rw [D2.Employee.has_skill] at h
  cases hl : D2.lookupSkill e.skills p.1 with
  | none => rw [hl] at h; exact absurd h (by simp)
  | some held =>
    rw [hl] at h
    have hle : p.2.value ≤ held.value := by simpa using h
    rw [skill_term, hl]
    have hc : (p.2.value : ℚ) ≤ (held.value : ℚ) := by exact_mod_cast hle
    nlinarith

theorem fold_eq_min_fold (e : D2.Employee) (l : List (D2.Skill × D2.SkillLevel))
    (a : ℚ) (h : ∀ p ∈ l, e.has_skill p.1 p.2 = true) :
    l.foldl (fun sf p =>
      match D2.lookupSkill e.skills p.1 with
      | some held => min sf (1 - ((held.value : ℚ) - (p.2.value : ℚ)) * 0.1)
      | none => sf) a
    = l.foldl (fun acc q => min acc (skill_term e q)) a := by
  induction l generalizing a with
  | nil => rfl
  | cons p rest ih =>
    have hp := h p (List.mem_cons_self p rest)
    rw [D2.Employee.has_skill] at hp
    rcases hl : D2.lookupSkill e.skills p.1 with _ | held
    · rw [hl] at hp; exact absurd hp (by simp)
    · simp only [List.foldl_cons, hl, skill_term]
      exact ih _ (fun q hq => h q (List.mem_cons_of_mem p hq))

theorem calc_eq_spec (step : D2.ProductionStep) (e : D2.Employee)
    (hne : step.required_skills ≠ [])
    (h : ∀ p ∈ step.required_skills, e.has_skill p.1 p.2 = true) :
    step.calculate_actual_duration e =
      pyInt ((step.duration : ℚ) * min_over_skills e step.required_skills *
        (1 + ((e.fatigue_level : ℚ) / 100) * 0.3)) := by
  rw [D2.ProductionStep.calculate_actual_duration]
  rcases hr : step.required_skills with _ | ⟨p, rest⟩
  · exact absurd hr hne
  · rw [hr] at h
    have hfold := fold_eq_min_fold e (p :: rest) 1 h
    simp only [hfold, List.foldl_cons, min_over_skills]
    rw [min_eq_right (skill_term_le_one e p (h p (List.mem_cons_self p rest)))]

theorem floor_key (d : Nat) (hd : 1 ≤ d) :
    ⌊(d : ℚ) * (4/5)⌋ < ⌊(d : ℚ) * (31/25)⌋ := by
  rcases Nat.lt_or_ge d 3 with h3 | h3
  · interval_cases d <;> norm_num
  · have hd3 : (3 : ℚ) ≤ (d : ℚ) := by exact_mod_cast h3
    have h1 : (⌊(d:ℚ) * (4/5)⌋ : ℚ) ≤ (d:ℚ) * (4/5) := Int.floor_le _
    have h2 : (⌊(d:ℚ) * (4/5)⌋ + 1 : ℤ) ≤ ⌊(d:ℚ) * (31/25)⌋ := by
      apply Int.le_floor.mpr
      push_cast
      linarith
    omega

theorem expert_duration_eq (s : D2.Skill) (d : Nat) :
    D2.ProductionStep.calculate_actual_duration ⟨1, [(s, .INTERMEDIATE)], d⟩
        ⟨1, [(s, .EXPERT)], .AVAILABLE, 0, {}⟩ = pyInt ((d : ℚ) * (4/5)) := by
  rw [D2.ProductionStep.calculate_actual_duration]
  simp [D2.lookupSkill, List.find?, skill_beq, D2.SkillLevel.value]
  norm_num [min_def]

theorem min_level_duration_eq (s : D2.Skill) (d : Nat) :
    D2.ProductionStep.calculate_actual_duration ⟨1, [(s, .INTERMEDIATE)], d⟩
        ⟨2, [(s, .INTERMEDIATE)], .AVAILABLE, 80, {}⟩ = pyInt ((d : ℚ) * (31/25)) := by
  rw [D2.ProductionStep.calculate_actual_duration]
  simp [D2.lookupSkill, List.find?, skill_beq, D2.SkillLevel.value]
  norm_num [min_def]

theorem duration_scaling_aux (s : D2.Skill) (d : Nat) (hd : 1 ≤ d) :
    D2.ProductionStep.calculate_actual_duration ⟨1, [(s, .INTERMEDIATE)], d⟩
        ⟨1, [(s, .EXPERT)], .AVAILABLE, 0, {}⟩ <
      D2.ProductionStep.calculate_actual_duration ⟨1, [(s, .INTERMEDIATE)], d⟩
        ⟨2, [(s, .INTERMEDIATE)], .AVAILABLE, 80, {}⟩ := by
  rw [expert_duration_eq, min_level_duration_eq,
    pyInt_eq_floor _ (by positivity), pyInt_eq_floor _ (by positivity)]
  exact floor_key d hd

/-! ## Claims -/

/-- Claim C6: the failure risk is `wear/(threshold*10)` strictly below the
critical threshold and the capped quadratic
`min 0.90 (0.1 + ((wear-threshold)/20)^2)` at or above it; with threshold
80, wear 85 reports strictly greater risk than wear 79, and the risk never
exceeds 0.90 for any wear in `[0, 100]`. -/
theorem risk_of_failure_spec :
    (∀ c : D2.MachineCondition, c.wear_level < c.critical_threshold →
      c.risk_of_failure = (c.wear_level : ℚ) / ((c.critical_threshold : ℚ) * 10)) ∧
    (∀ c : D2.MachineCondition, c.critical_threshold ≤ c.wear_level →
      c.risk_of_failure =
        min 0.90 (0.1 + (((c.wear_level : ℚ) - (c.critical_threshold : ℚ)) / 20) ^ 2)) ∧
    D2.MachineCondition.risk_of_failure ⟨79, 80⟩ <
      D2.MachineCondition.risk_of_failure ⟨85, 80⟩ ∧
    (∀ w : Int, 0 ≤ w → w ≤ 100 →
      D2.MachineCondition.risk_of_failure ⟨w, 80⟩ ≤ 0.90) := by
  refine ⟨?_, ?_, ?_, ?_⟩
  · intro c hc
    rw [D2.MachineCondition.risk_of_failure, if_neg (by omega)]
  · intro c hc
    rw [D2.MachineCondition.risk_of_failure, if_pos hc]
  · norm_num [D2.MachineCondition.risk_of_failure, min_def]
  · intro w h0 h1
    rw [D2.MachineCondition.risk_of_failure]
    by_cases hw : (80 : Int) ≤ w
    · rw [if_pos hw]
      exact min_le_left _ _
    · rw [if_neg hw]
      have hwq : (w : ℚ) < 80 := by exact_mod_cast Int.not_le.mp hw
      rw [div_le_iff₀ (by norm_num)]
      norm_num
      linarith

/-- Witness for C6 at wear 79 (linear branch) and wear 85 (bound). -/
theorem risk_of_failure_spec_witness :
    ((79 : Int) < 80) ∧ ((0 : Int) ≤ 85) ∧ ((85 : Int) ≤ 100) ∧
    D2.MachineCondition.risk_of_failure ⟨79, 80⟩ =
      (((79 : Int) : ℚ)) / (((80 : Int) : ℚ) * 10) ∧
    D2.MachineCondition.risk_of_failure ⟨85, 80⟩ ≤ 0.90 :=
  ⟨by decide, by decide, by decide,
    risk_of_failure_spec.1 ⟨79, 80⟩ (by decide),
    risk_of_failure_spec.2.2.2 85 (by decide) (by decide)⟩

/-- Claim C7: two consecutive `ROUTINE` maintenances on a machine with wear
in `[0, 100]` leave the wear clamped at or above 0, and each of the two
calls resets `last_routine` to that call's start time. -/
theorem routine_maintenance_twice_spec (m : D2.Machine) (e1 e2 : D2.Employee)
    (t1 t2 : Int)
    (h0 : 0 ≤ m.condition.wear_level) (h1 : m.condition.wear_level ≤ 100) :
    0 ≤ ((m.perform_maintenance .ROUTINE e1 t1).1.perform_maintenance
        .ROUTINE e2 t2).1.condition.wear_level ∧
    (m.perform_maintenance .ROUTINE e1 t1).1.maintenance_schedule.last_routine = t1 ∧
    ((m.perform_maintenance .ROUTINE e1 t1).1.perform_maintenance
        .ROUTINE e2 t2).1.maintenance_schedule.last_routine = t2 := by
  refine ⟨?_, rfl, rfl⟩
  simp only [D2.Machine.perform_maintenance]
  omega

/-- Witness for C7 at a machine with wear 40. -/
theorem routine_maintenance_twice_spec_witness :
    (0 : Int) ≤ 40 ∧ (40 : Int) ≤ 100 ∧
    (0 ≤ (((⟨1, .AVAILABLE, {}, { wear_level := 40 }, [], 0, 43800, {}⟩ :
          D2.Machine).perform_maintenance .ROUTINE ⟨3, [], .AVAILABLE, 0, {}⟩
          5).1.perform_maintenance .ROUTINE ⟨3, [], .AVAILABLE, 0, {}⟩
          9).1.condition.wear_level ∧
      ((⟨1, .AVAILABLE, {}, { wear_level := 40 }, [], 0, 43800, {}⟩ :
          D2.Machine).perform_maintenance .ROUTINE ⟨3, [], .AVAILABLE, 0, {}⟩
          5).1.maintenance_schedule.last_routine = 5 ∧
      (((⟨1, .AVAILABLE, {}, { wear_level := 40 }, [], 0, 43800, {}⟩ :
          D2.Machine).perform_maintenance .ROUTINE ⟨3, [], .AVAILABLE, 0, {}⟩
          5).1.perform_maintenance .ROUTINE ⟨3, [], .AVAILABLE, 0, {}⟩
          9).1.maintenance_schedule.last_routine = 9) :=
  ⟨by decide, by decide,
    routine_maintenance_twice_spec _ _ _ 5 9 (by decide) (by decide)⟩

set_option maxHeartbeats 1000000 in
/-- The shift/break tick only ever leaves fatigue unchanged, applies
`take_break 30`, or applies the off-shift decay, so it preserves the
fatigue bounds. -/
theorem tick_fatigue (e : D2.Employee) (bs : Option Nat) (now : Nat)
    (hf0 : 0 ≤ e.fatigue_level) (hf1 : e.fatigue_level ≤ 100) :
    0 ≤ (D2.employee_schedule_tick e bs now).1.fatigue_level ∧
      (D2.employee_schedule_tick e bs now).1.fatigue_level ≤ 100 := by
  simp only [D2.employee_schedule_tick, D2.Employee.take_break]
  repeat' split
  all_goals simp
  all_goals omega

/-- Claim C9: every fatigue- or wear-mutating operation (`increase_fatigue`
after work, `take_break`, the shift/break tick with its off-shift decay,
`increase_wear` during operation, `perform_maintenance` of every kind)
keeps fatigue in `[0, 100]` and wear in `[0, 100]`, given the bounds held
before. -/
theorem clamping_invariants (e : D2.Employee) (m : D2.Machine)
    (wd bd ot : Nat) (mt : D2.MaintenanceType) (tech : D2.Employee) (t : Int)
    (bs : Option Nat) (now : Nat)
    (hf0 : 0 ≤ e.fatigue_level) (hf1 : e.fatigue_level ≤ 100)
    (hw0 : 0 ≤ m.condition.wear_level) (hw1 : m.condition.wear_level ≤ 100)
    (hoh : 0 ≤ m.operating_hours) (hlt : 0 < m.expected_lifetime) :
    (0 ≤ (e.increase_fatigue wd).fatigue_level ∧
      (e.increase_fatigue wd).fatigue_level ≤ 100) ∧
    (0 ≤ (e.take_break bd).fatigue_level ∧
      (e.take_break bd).fatigue_level ≤ 100) ∧
    (0 ≤ (D2.employee_schedule_tick e bs now).1.fatigue_level ∧
      (D2.employee_schedule_tick e bs now).1.fatigue_level ≤ 100) ∧
    (0 ≤ (m.increase_wear ot).condition.wear_level ∧
      (m.increase_wear ot).condition.wear_level ≤ 100) ∧
    (0 ≤ (m.perform_maintenance mt tech t).1.condition.wear_level ∧
      (m.perform_maintenance mt tech t).1.condition.wear_level ≤ 100) := by
  refine ⟨?_, ?_, ?_, ?_, ?_⟩
  · simp only [D2.Employee.increase_fatigue]
    omega
  · simp only [D2.Employee.take_break]
    omega
  · exact tick_fatigue e bs now hf0 hf1
  · simp only [D2.Machine.increase_wear]
    have hnn : (0 : ℚ) ≤ ((ot : ℚ) / 60) *
        (1 + (m.operating_hours + (ot : ℚ) / 60) / m.expected_lifetime) := by
      have h1 : (0 : ℚ) ≤ (ot : ℚ) / 60 := by positivity
      have h2 : (0 : ℚ) ≤ (m.operating_hours + (ot : ℚ) / 60) / m.expected_lifetime := by
        apply div_nonneg (by linarith) (le_of_lt hlt)
      nlinarith
    have := pyInt_nonneg _ hnn
    omega
  · cases mt <;> simp only [D2.Machine.perform_maintenance] <;> omega

/-- Witness for C9 at a fresh employee and machine. -/
theorem clamping_invariants_witness :
    ((0 : Int) ≤ 0 ∧ (0 : Int) ≤ 100 ∧ (0 : ℚ) ≤ 0 ∧ (0 : ℚ) < 43800) ∧
    (0 ≤ ((⟨1, [], .AVAILABLE, 0, {}⟩ : D2.Employee).increase_fatigue 90).fatigue_level ∧
      ((⟨1, [], .AVAILABLE, 0, {}⟩ : D2.Employee).increase_fatigue 90).fatigue_level ≤ 100) ∧
    (0 ≤ ((⟨1, .AVAILABLE, {}, {}, [], 0, 43800, {}⟩ : D2.Machine).increase_wear
        120).condition.wear_level ∧
      ((⟨1, .AVAILABLE, {}, {}, [], 0, 43800, {}⟩ : D2.Machine).increase_wear
        120).condition.wear_level ≤ 100) := by
  have h := clamping_invariants ⟨1, [], .AVAILABLE, 0, {}⟩
    ⟨1, .AVAILABLE, {}, {}, [], 0, 43800, {}⟩ 90 30 120 .ROUTINE
    ⟨2, [], .AVAILABLE, 0, {}⟩ 0 none 0
    (by decide) (by decide) (by decide) (by decide) (by norm_num) (by norm_num)
  exact ⟨⟨by decide, by decide, by norm_num, by norm_num⟩, h.1, h.2.2.2.1⟩

/-- Claim C10: `perform_maintenance` of kind `ROUTINE` or `PREVENTIVE`
leaves the machine's status unchanged (only `CORRECTIVE` and `EMERGENCY`
set it to `AVAILABLE`), and after the maintenance scheduler dispatches a
routine job — setting the status to `MAINTENANCE` beforehand and restoring
only the employee afterwards — the machine's status is still
`MAINTENANCE`. -/
theorem routine_maintenance_keeps_status :
    (∀ (m : D2.Machine) (e : D2.Employee) (t : Int),
      (m.perform_maintenance .ROUTINE e t).1.status = m.status ∧
      (m.perform_maintenance .PREVENTIVE e t).1.status = m.status ∧
      (m.perform_maintenance .CORRECTIVE e t).1.status = .AVAILABLE ∧
      (m.perform_maintenance .EMERGENCY e t).1.status = .AVAILABLE) ∧
    ((D2.maintenance_scheduler_tick mmC10 0).machines.find?
        (fun m => m.id == 0)).map (fun m => m.status) =
      some .MAINTENANCE ∧
    (D2.maintenance_scheduler_tick mmC10 0).stats.routine_performed = 1 := by
  set_option maxHeartbeats 1000000 in
  refine ⟨fun m e t => ⟨rfl, rfl, rfl, rfl⟩, ?_, ?_⟩ <;>
    simp [D2.maintenance_scheduler_tick, D2.scanMachines, mmC10, D2.findMachine,
      D2.updMachine, D2.setEmployeeStatus, D2.Machine.perform_maintenance,
      D2.MaintenanceManager.schedule_maintenance, D2.Employee.has_skill,
      D2.lookupSkill, D2.MaintenanceDurations.get, D2.SkillLevel.value,
      List.filter, List.find?, List.foldl]

/-- Claim C1 (code bug): on a material shortage `process_order` leaves the
inventory untouched and increments `orders_cancelled`, but it never writes
the order's status — the order comes out exactly as it went in, still
`RECEIVED`, not `CANCELLED`. -/
theorem process_order_shortage_keeps_received :
    Design.isShort invC1
      (Design.aggregate_requirements orderC1.steps orderC1.quantity) = true ∧
    Design.process_order invC1 {} orderC1 =
      (invC1, { orders_received := 1, orders_cancelled := 1 }, orderC1) ∧
    orderC1.status = .RECEIVED ∧
    Design.OrderStatus.RECEIVED ≠ Design.OrderStatus.CANCELLED := by
  refine ⟨?_, ?_, rfl, ?_⟩ <;> decide

set_option maxHeartbeats 1000000 in
/-- Claim C2 (code bug): with the emergency queue holding one entry and no
available maintenance worker, one scheduler iteration pops the entry and
does **not** re-queue it — afterwards both queues are empty, so the entry
is lost rather than deferred to the next tick. -/
theorem emergency_entry_dropped :
    mmC2.emergency_queue = [(0, .EMERGENCY)] ∧
    mmC2.maintenance_employees.filter
      (fun e => e.status == .AVAILABLE &&
        e.has_skill .MAINTENANCE .INTERMEDIATE) = [] ∧
    (D2.maintenance_scheduler_tick mmC2 0).emergency_queue = [] ∧
    (D2.maintenance_scheduler_tick mmC2 0).scheduled_maintenance = [] := by
  refine ⟨rfl, ?_, ?_, ?_⟩ <;>
    simp [D2.maintenance_scheduler_tick, D2.scanMachines, mmC2, rstatus_beq,
      D2.Employee.has_skill, D2.lookupSkill, D2.SkillLevel.value,
      D2.MaintenanceManager.schedule_maintenance,
      List.filter, List.foldl]

/-- Claim C3 (code bug): with every resource available, `schedule_order`
computes `end_time` by `current_time.replace(minute=30+45)` and raises a
`ValueError` (minute 75 is outside 0..59) instead of returning a boolean;
`process_new_order` propagates the same exception instead of cancelling the
order. -/
theorem schedule_order_minute_valueerror :
    Design.schedule_order rsC3 orderC3 ⟨0, 30⟩ =
      .error "ValueError: minute must be in 0..59" ∧
    Design.process_new_order rsC3 orderC3 ⟨0, 30⟩ =
      .error "ValueError: minute must be in 0..59" :=
  ⟨rfl, rfl⟩

/-- The sampled-point structure of the `while current < end_time` loop of
`Employee.is_available`: the loop accepts iff the schedule covers every
sampled point `start + 15 * i` with `i < n`. -/
theorem coverSteps_iff (sched : D2.WorkSchedule) (start n : Nat) :
    D2.coverSteps sched start n = true ↔
      ∀ i, i < n → sched.is_available (start + 15 * i) = true := by
  induction n generalizing start with
  | zero => simp [D2.coverSteps]
  | succ k ih =>
    rw [D2.coverSteps, Bool.and_eq_true, ih]
    constructor
    · rintro ⟨h0, h⟩ i hi
      match i with
      | 0 => simpa using h0
      | j + 1 =>
        have hj := h j (by omega)
        rw [show start + 15 + 15 * j = start + 15 * (j + 1) by ring] at hj
        exact hj
    · intro h
      refine ⟨by simpa using h 0 (by omega), fun j hj => ?_⟩
      have := h (j + 1) (by omega)
      rw [show start + 15 * (j + 1) = start + 15 + 15 * j by ring] at this
      exact this

/-- Membership in the eligible-workers query, characterised: in the list,
status `AVAILABLE` **or `ON_BREAK`**, all required skills held, and the
shift calendar true at every sampled 15-minute point of the interval. -/
theorem eligibility_iff (es : List D2.Employee) (e : D2.Employee)
    (req : List (D2.Skill × D2.SkillLevel)) (t d : Nat) :
    e ∈ D2.find_available_employees es req t d ↔
      e ∈ es ∧ (e.status = .AVAILABLE ∨ e.status = .ON_BREAK) ∧
        (∀ p ∈ req, e.has_skill p.1 p.2 = true) ∧
        (∀ i : Nat, 15 * i < d → e.schedule.is_available (t + 15 * i) = true) := by
  rw [D2.find_available_employees, List.mem_filter, Bool.and_eq_true,
    D2.Employee.is_available, Bool.and_eq_true, Bool.or_eq_true, coverSteps_iff,
    List.all_eq_true]
  constructor
  · rintro ⟨hmem, hsk, ⟨hst, hcov⟩⟩
    refine ⟨hmem, ?_, fun p hp => hsk p hp, fun i hi => hcov i (by omega)⟩
    rcases hst with h | h
    · exact Or.inl (by simpa [rstatus_beq] using h)
    · exact Or.inr (by simpa [rstatus_beq] using h)
  · rintro ⟨hmem, hst, hsk, hcov⟩
    refine ⟨hmem, fun p hp => hsk p hp, ⟨?_, fun i hi => hcov i (by omega)⟩⟩
    rcases hst with h | h
    · exact Or.inl (by simp [rstatus_beq, h])
    · exact Or.inr (by simp [rstatus_beq, h])

/-- Counterexample to claim C4 as stated: at Monday 08:00 (minute 480 of
day 0) for a 30-minute task, the eligible-workers query returns a worker
whose status is `ON_BREAK`, not `AVAILABLE` — eligibility does not require
the status to be `available`. -/
theorem on_break_worker_eligible :
    D2.find_available_employees [onBreakWelder]
      [(.FRAME_WELDING, .INTERMEDIATE)] 480 30 = [onBreakWelder] ∧
    onBreakWelder.status ≠ D2.ResourceStatus.AVAILABLE := by
  refine ⟨?_, by decide⟩
  decide

/-- Claim C4 (amended): a worker is returned by the eligible-workers query
iff they are in the pool, their status is `AVAILABLE` **or `ON_BREAK`**
(the source admits on-break workers), every required skill is held at the
required level, and the shift calendar covers every sampled 15-minute point
from the start time through start time plus duration; a `BUSY` worker is
never eligible. -/
theorem find_available_employees_spec (es : List D2.Employee) (e : D2.Employee)
    (req : List (D2.Skill × D2.SkillLevel)) (t d : Nat) :
    (e ∈ D2.find_available_employees es req t d ↔
      e ∈ es ∧ (e.status = .AVAILABLE ∨ e.status = .ON_BREAK) ∧
        (∀ p ∈ req, e.has_skill p.1 p.2 = true) ∧
        (∀ i : Nat, 15 * i < d →
          e.schedule.is_available (t + 15 * i) = true)) ∧
    (e.status = .BUSY → e ∉ D2.find_available_employees es req t d) := by
  refine ⟨eligibility_iff es e req t d, fun hb hmem => ?_⟩
  rcases ((eligibility_iff es e req t d).mp hmem).2.1 with h | h <;>
    rw [hb] at h <;> exact absurd h (by decide)

/-- Witness for C4 applying the busy-exclusion at a concrete worker. -/
theorem find_available_employees_spec_witness :
    (⟨4, [], .BUSY, 0, {}⟩ : D2.Employee).status = .BUSY ∧
    (⟨4, [], .BUSY, 0, {}⟩ : D2.Employee) ∉
      D2.find_available_employees [⟨4, [], .BUSY, 0, {}⟩] [] 0 0 :=
  ⟨rfl, (find_available_employees_spec [⟨4, [], .BUSY, 0, {}⟩]
    ⟨4, [], .BUSY, 0, {}⟩ [] 0 0).2 rfl⟩

/-- Claim C5: for a worker holding every required skill (non-empty
requirement list), the computed duration is
`int(base × (min over required skills of (1 − 0.1×(worker_level −
required_level))) × (1 + 0.3×(fatigue/100)))`; consequently, for any
positive nominal duration and an `INTERMEDIATE`-level requirement, an
`EXPERT` worker at fatigue 0 gets a strictly smaller duration than a worker
at exactly `INTERMEDIATE` at fatigue 80. -/
theorem calculate_actual_duration_spec :
    (∀ (step : D2.ProductionStep) (e : D2.Employee),
      step.required_skills ≠ [] →
      (∀ p ∈ step.required_skills, e.has_skill p.1 p.2 = true) →
      step.calculate_actual_duration e =
        pyInt ((step.duration : ℚ) * min_over_skills e step.required_skills *
          (1 + ((e.fatigue_level : ℚ) / 100) * 0.3))) ∧
    (∀ (s : D2.Skill) (d : Nat), 1 ≤ d →
      D2.ProductionStep.calculate_actual_duration ⟨1, [(s, .INTERMEDIATE)], d⟩
          ⟨1, [(s, .EXPERT)], .AVAILABLE, 0, {}⟩ <
        D2.ProductionStep.calculate_actual_duration ⟨1, [(s, .INTERMEDIATE)], d⟩
          ⟨2, [(s, .INTERMEDIATE)], .AVAILABLE, 80, {}⟩) :=
  ⟨calc_eq_spec, duration_scaling_aux⟩

/-- Witness for C5 at a 90-minute welding step. -/
theorem calculate_actual_duration_spec_witness :
    (([(D2.Skill.FRAME_WELDING, D2.SkillLevel.INTERMEDIATE)] :
        List (D2.Skill × D2.SkillLevel)) ≠ [] ∧ 1 ≤ 90) ∧
    D2.ProductionStep.calculate_actual_duration
        ⟨1, [(.FRAME_WELDING, .INTERMEDIATE)], 90⟩
        ⟨1, [(.FRAME_WELDING, .EXPERT)], .AVAILABLE, 0, {}⟩ =
      pyInt (((90 : Nat) : ℚ) *
        min_over_skills ⟨1, [(.FRAME_WELDING, .EXPERT)], .AVAILABLE, 0, {}⟩
          [(.FRAME_WELDING, .INTERMEDIATE)] *
        (1 + (((0 : Int) : ℚ) / 100) * 0.3)) ∧
    D2.ProductionStep.calculate_actual_duration
        ⟨1, [(.FRAME_WELDING, .INTERMEDIATE)], 90⟩
        ⟨1, [(.FRAME_WELDING, .EXPERT)], .AVAILABLE, 0, {}⟩ <
      D2.ProductionStep.calculate_actual_duration
        ⟨1, [(.FRAME_WELDING, .INTERMEDIATE)], 90⟩
        ⟨2, [(.FRAME_WELDING, .INTERMEDIATE)], .AVAILABLE, 80, {}⟩ :=
  ⟨⟨by decide, by decide⟩,
    calculate_actual_duration_spec.1 ⟨1, [(.FRAME_WELDING, .INTERMEDIATE)], 90⟩
      ⟨1, [(.FRAME_WELDING, .EXPERT)], .AVAILABLE, 0, {}⟩ (by decide) (by decide),
    calculate_actual_duration_spec.2 .FRAME_WELDING 90 (by decide)⟩

/-- Counterexample to claim C8 as stated: one shift/break tick moves a
`BUSY` worker whose calendar does not cover the current time to
`OFF_SHIFT` — the tick silently overwrites the busy status instead of
leaving it unchanged. -/
theorem busy_worker_forced_off_shift :
    busyNoShift.status = .BUSY ∧
    busyNoShift.schedule.is_available 0 = false ∧
    (D2.employee_schedule_tick busyNoShift none 0).1.status =
      D2.ResourceStatus.OFF_SHIFT ∧
    D2.ResourceStatus.OFF_SHIFT ≠ D2.ResourceStatus.BUSY := by
  refine ⟨rfl, ?_, ?_, by decide⟩ <;> decide

/-- Claim C8 (amended): one shift/break tick leaves a busy worker with no
pending break entry unchanged when the current time is inside their shift
calendar; but when the time is outside the calendar the tick sets the busy
worker to `OFF_SHIFT` (the code overwrites every status other than
`OFF_SHIFT`/`UNAVAILABLE` in that case, rather than rejecting the
transition). -/
theorem tick_busy_worker_spec (e : D2.Employee) (now : Nat)
    (h : e.status = .BUSY) :
    (e.schedule.is_available now = true →
      (D2.employee_schedule_tick e none now).1.status = .BUSY) ∧
    (e.schedule.is_available now = false →
      (D2.employee_schedule_tick e none now).1.status = .OFF_SHIFT) := by
  constructor <;> intro hav <;>
    simp [D2.employee_schedule_tick, hav, h, rstatus_beq]

/-- Witness for C8: a busy worker on the Monday morning shift at Monday
08:00 keeps the busy status through one tick. -/
theorem tick_busy_worker_spec_witness :
    (⟨5, [], .BUSY, 0, { shifts := [(0, .MORNING)] }⟩ : D2.Employee).status =
      .BUSY ∧
    (⟨5, [], .BUSY, 0, { shifts := [(0, .MORNING)] }⟩ :
      D2.Employee).schedule.is_available 480 = true ∧
    (D2.employee_schedule_tick
      ⟨5, [], .BUSY, 0, { shifts := [(0, .MORNING)] }⟩ none 480).1.status =
      .BUSY :=
  ⟨rfl, by decide,
    (tick_busy_worker_spec ⟨5, [], .BUSY, 0, { shifts := [(0, .MORNING)] }⟩
      480 rfl).1 (by decide)⟩
